import Mathlib

/-!
Verification of the SSEE2 grid-monitor firmware (ESP32) against its
natural-language specification.  The C sources under `src/` are shallowly
embedded: pure computations become Lean functions, the stateful FSMs become
explicit state-passing step functions, C `float`/`double` arithmetic is
modelled by exact rationals (`ℚ`), machine integers by `Nat`/`Int` with
explicit `% 2^w` where overflow matters, and FreeRTOS ticks are identified
with milliseconds (`pdTICKS_TO_MS` with a 1 kHz tick).
-/

/- ===================== Configuration constants =====================
   From include/config/system_config.h, include/app/control.h,
   include/app/measure.h and include/hal/adc_dma.h. -/

/-- `NUM_LOADS` (system_config.h): number of controllable loads. -/
def NUM_LOADS : Nat := 4

/-- `DEFAULT_IMAX` (control.h): default maximum RMS current, 5.0 A. -/
def DEFAULT_IMAX : ℚ := 5

/-- `DEFAULT_VMIN` (control.h): default minimum RMS voltage, 200 V. -/
def DEFAULT_VMIN : Int := 200

/-- `DEFAULT_VMAX` (control.h): default maximum RMS voltage, 250 V. -/
def DEFAULT_VMAX : Int := 250

/-- `DEFAULT_AUTO_REC` (control.h). -/
def DEFAULT_AUTO_REC : Bool := true

/-- `IMAX_HYST_PRC` (control.h): overcurrent hysteresis band, 10 %. -/
def IMAX_HYST_PRC : ℚ := 10

/-- `VRANGE_HYST_PRC` (control.h): voltage hysteresis band, 5 %. -/
def VRANGE_HYST_PRC : ℚ := 5

/-- `MAX_FAIL_I` (control.h): consecutive current failures before lockout. -/
def MAX_FAIL_I : Nat := 2

/-- `CONTROL_REC_I_TIME_MS` (system_config.h). -/
def CONTROL_REC_I_TIME_MS : Nat := 5000

/-- `CONTROL_REC_V_TIME_MS` (system_config.h). -/
def CONTROL_REC_V_TIME_MS : Nat := 3000

/-- `CONTROL_REPET_I_RST_MS` (system_config.h). -/
def CONTROL_REPET_I_RST_MS : Nat := 10000

/-- `SAVE_ENERGY_THS_KWH` (system_config.h): auto-save threshold, 1 kWh. -/
def SAVE_ENERGY_THS_KWH : ℚ := 1

/-- `ADC_MAX_COUNT` (adc_dma.h): 12-bit ADC full scale. -/
def ADC_MAX_COUNT : Nat := 4095

/-- `ADC_CH_V` (adc_dma.h): voltage channel, ADC_CHANNEL_4. -/
def ADC_CH_V : Nat := 4

/-- `ADC_CH_I` (adc_dma.h): current channel, ADC_CHANNEL_6. -/
def ADC_CH_I : Nat := 6

/-- `VOLT_DRIVER_GROUNDNOISE` (measure.h): voltage-channel noise floor. -/
def VOLT_DRIVER_GROUNDNOISE : ℚ := 114

/-- `ACS712_GROUNDNOISE` (measure.h): current-channel noise floor, 0.15. -/
def ACS712_GROUNDNOISE : ℚ := 3 / 20

/-- `ACS712_OFFSET` (measure.h): DC offset subtracted from Irms, 0.05. -/
def ACS712_OFFSET : ℚ := 1 / 20

/-- `TIME_SAMPLE_H` (system_config.h): one measurement window in hours,
`(1/20000)*4000/3600`. -/
def TIME_SAMPLE_H : ℚ := 1 / 18000

/- ===================== Machine-integer helpers ===================== -/

/-- Wrap-safe `uint32_t` subtraction `a - b` as used by tick arithmetic. -/
def u32_sub (a b : Nat) : Nat := (a % 2 ^ 32 + 2 ^ 32 - b % 2 ^ 32) % 2 ^ 32

/-- C cast of a mathematical integer to `int16_t` (two's complement wrap). -/
def int16_cast (x : Int) : Int := (x + 32768) % 65536 - 32768

/- ===================== System timers (core/system_timers.c) ========= -/

/-- `sys_timer_t` (system_timers.h): one-shot software timer. -/
structure sys_timer_t where
  active : Bool
  start_tick : Nat
  timeout_ms : Nat
deriving Repr, DecidableEq

/-- `timer_start` (system_timers.c:3-7). -/
def timer_start (now tout_ms : Nat) : sys_timer_t :=
  { active := true, start_tick := now, timeout_ms := tout_ms }

/-- `timer_expired` (system_timers.c:9-13): `lapse = now - start` in
`TickType_t` (uint32) arithmetic, expired when `lapse ≥ timeout_ms`. -/
def timer_expired (now : Nat) (t : sys_timer_t) : Bool :=
  t.active && decide (u32_sub now t.start_tick ≥ t.timeout_ms)

/-- `timer_stop` (system_timers.c:15-17). -/
def timer_stop (t : sys_timer_t) : sys_timer_t := { t with active := false }

/- ===================== Load configuration (control.h) ============== -/

/-- `load_cfg_t` (control.h): per-load protection configuration. -/
structure load_cfg_t where
  v_min : Int
  v_max : Int
  auto_rec : Bool
  priority : Nat
deriving Repr, DecidableEq

/-- `sys_load_cfg_t` (control.h): global control configuration. -/
structure sys_load_cfg_t where
  imax : ℚ
  load : Fin NUM_LOADS → load_cfg_t

/-- The configuration installed by `control_reset` (control.c:57-84):
`imax = DEFAULT_IMAX` and every load gets the `DEFAULT_*` values with
`priority = id`. -/
def control_reset_cfg : sys_load_cfg_t :=
  { imax := DEFAULT_IMAX
    load := fun i =>
      { v_min := DEFAULT_VMIN, v_max := DEFAULT_VMAX,
        auto_rec := DEFAULT_AUTO_REC, priority := i.val } }

/-- `control_set_load_vmin` (control.c:136-142): reject `id ≥ NUM_LOADS`,
otherwise store `v_min` verbatim (no cross-check against `v_max`). -/
def control_set_load_vmin (cfg : sys_load_cfg_t) (id : Nat) (v_min : Int) :
    Bool × sys_load_cfg_t :=
  if h : id < NUM_LOADS then
    (true,
      { cfg with
        load := Function.update cfg.load ⟨id, h⟩
          { cfg.load ⟨id, h⟩ with v_min := v_min } })
  else (false, cfg)

/-- `control_set_load_vmax` (control.c:144-150): reject `id ≥ NUM_LOADS`,
otherwise store `v_max` verbatim (no cross-check against `v_min`). -/
def control_set_load_vmax (cfg : sys_load_cfg_t) (id : Nat) (v_max : Int) :
    Bool × sys_load_cfg_t :=
  if h : id < NUM_LOADS then
    (true,
      { cfg with
        load := Function.update cfg.load ⟨id, h⟩
          { cfg.load ⟨id, h⟩ with v_max := v_max } })
  else (false, cfg)

/-- `control_get_v_min` (control.c:176-182): `-1` for an invalid id,
otherwise the stored bound.  The function only reads the configuration. -/
def control_get_v_min (cfg : sys_load_cfg_t) (id : Nat) : Int :=
  if h : id < NUM_LOADS then (cfg.load ⟨id, h⟩).v_min else -1

/-- `control_get_v_max` (control.c:184-190): `-1` for an invalid id,
otherwise the stored bound. -/
def control_get_v_max (cfg : sys_load_cfg_t) (id : Nat) : Int :=
  if h : id < NUM_LOADS then (cfg.load ⟨id, h⟩).v_max else -1

/- ============ Priority permutation (control.c:27-47) =============== -/

/-- Strict lexicographic order on `(priority, id)` keys used by the
priority index: load `x` comes before load `y`. -/
def keyLt (p : Nat → Nat) (x y : Nat) : Prop :=
  p x < p y ∨ (p x = p y ∧ x < y)

/-- One compare-exchange of the inner loop of
`control_rebuild_priority_index` (control.c:33-45): positions `(i, j)` hold
ids `x`, `y`; they are swapped when `pr_j < pr_i`, or `pr_j = pr_i` and
`id_j < id_i` (ascending order, ties resolved by id). -/
def control_cex (p : Nat → Nat) (x y : Nat) : Nat × Nat :=
  if p y < p x ∨ (p y = p x ∧ y < x) then (y, x) else (x, y)

/-- `control_rebuild_priority_index` (control.c:27-47) at
`NUM_LOADS = 4`, taking the priority of each load id as `p`.  The array
starts as `[0,1,2,3]` (fill by id, control.c:29-31) and the double loop
compare-exchanges the position pairs
`(0,1),(0,2),(0,3),(1,2),(1,3),(2,3)` in that order. -/
def control_rebuild_priority_index (p : Nat → Nat) : List Nat :=
  let s01 := control_cex p 0 1          -- i=0, j=1
  let s02 := control_cex p s01.1 2      -- i=0, j=2
  let s03 := control_cex p s02.1 3      -- i=0, j=3
  let s12 := control_cex p s01.2 s02.2  -- i=1, j=2
  let s13 := control_cex p s12.1 s03.2  -- i=1, j=3
  let s23 := control_cex p s12.2 s13.2  -- i=2, j=3
  [s03.1, s13.1, s23.1, s23.2]

/- ============ Global overcurrent FSM (control.c:229-305) =========== -/

/-- `control_global_fsm_t` (control.h). -/
inductive control_global_fsm_t where
  | OK
  | FAIL_I
  | REC
  | MAN_REC
deriving Repr, DecidableEq

/-- The state touched by `control_global_fsm` (control.c): the FSM state,
the two fail flags, the `static` locals `cont_fails_i` (uint8) and
`imax_ths`, and the two timers. -/
structure control_global_st where
  state : control_global_fsm_t
  imax_fail : Bool
  imax_repetitive : Bool
  cont_fails_i : Nat
  imax_ths : Bool
  timer_cont_fails_i : sys_timer_t
  timer_global_rec : sys_timer_t
deriving Repr, DecidableEq

/-- `control_global_fsm_init` (control.c:217-220) as it acts on the
embedded state (state `OK`, `imax_repetitive` cleared). -/
def control_global_fsm_init (s : control_global_st) : control_global_st :=
  { s with state := .OK, imax_repetitive := false }

/-- `control_global_fsm` (control.c:229-305): one invocation with measured
current `I`, configured limit `imax` (`s_cfg.imax`) and current time
`now` (ticks = ms).  Returns the enable flag and the successor state.
Float arithmetic (`imax_reset = imax·(1 − IMAX_HYST_PRC/100)`) is modelled
exactly over `ℚ`; `cont_fails_i++` wraps as `uint8_t`. -/
def control_global_fsm (imax : ℚ) (now : Nat) (I : ℚ)
    (s : control_global_st) : Bool × control_global_st :=
  let imax_cut := imax
  let imax_reset := imax_cut * (1 - IMAX_HYST_PRC / 100)
  -- hysteresis update of the static `imax_ths` (control.c:237-242)
  let ths :=
    if ¬s.imax_ths ∧ I > imax_cut then true
    else if s.imax_ths ∧ I < imax_reset then false
    else s.imax_ths
  match s.state with
  | .OK =>
      -- control.c:246-263
      let t1 :=
        if s.cont_fails_i ≠ 0 ∧ ¬s.timer_cont_fails_i.active then
          timer_start now CONTROL_REPET_I_RST_MS
        else s.timer_cont_fails_i
      let t2 := if timer_expired now t1 then timer_stop t1 else t1
      let cont1 := if timer_expired now t1 then 0 else s.cont_fails_i
      if ths then
        (false, { s with state := .FAIL_I, imax_fail := true, cont_fails_i := (cont1 + 1) % 256, timer_cont_fails_i := timer_stop t2, imax_ths := ths })
      else
        (true, { s with cont_fails_i := cont1, timer_cont_fails_i := t2, imax_ths := ths })
  | .FAIL_I =>
      -- control.c:265-279
      if ¬ths then
        if s.cont_fails_i < MAX_FAIL_I then
          (false, { s with imax_fail := false, state := .REC, timer_global_rec := timer_start now CONTROL_REC_I_TIME_MS, imax_ths := ths })
        else
          (false, { s with imax_fail := false, state := .MAN_REC, imax_repetitive := true, imax_ths := ths })
      else (false, { s with imax_ths := ths })
  | .REC =>
      -- control.c:281-295
      if ths then
        (false, { s with imax_fail := true, state := .FAIL_I, timer_global_rec := timer_stop s.timer_global_rec, cont_fails_i := (s.cont_fails_i + 1) % 256, imax_ths := ths })
      else if timer_expired now s.timer_global_rec then
        (true, { s with imax_fail := false, state := .OK, timer_global_rec := timer_stop s.timer_global_rec, imax_ths := ths })
      else (false, { s with imax_fail := false, imax_ths := ths })
  | .MAN_REC =>
      -- control.c:297-301
      (false, { s with imax_repetitive := true, cont_fails_i := 0, imax_ths := ths })

/- ============ Individual voltage FSM (control.c:307-370) =========== -/

/-- `control_indiv_fsm_t` (control.h). -/
inductive control_indiv_fsm_t where
  | ON
  | FAIL_V
  | OFF
deriving Repr, DecidableEq

/-- Per-load state touched by `control_indiv_fsm`: FSM state, the
`v_fail[id]` flag and the recovery timer `timer_load_rec[id]`. -/
structure control_indiv_st where
  state : control_indiv_fsm_t
  v_fail : Bool
  timer_load_rec : sys_timer_t
deriving Repr, DecidableEq

/-- Widened lower threshold (control.c:314):
`vmin ≥ 0 ? (int16_t)(vmin·(1 − VRANGE_HYST_PRC/100)) : -1`; the
float product truncates toward zero, hence `⌊vmin·19/20⌋` for `vmin ≥ 0`. -/
def vmin_hyst (vmin : Int) : Int :=
  if 0 ≤ vmin then vmin * 19 / 20 else -1

/-- Widened upper threshold (control.c:315):
`vmax ≥ 0 ? (int16_t)(vmax·(1 + VRANGE_HYST_PRC/100)) : -1`, i.e.
`⌊vmax·21/20⌋` for `vmax ≥ 0`. -/
def vmax_hyst (vmax : Int) : Int :=
  if 0 ≤ vmax then vmax * 21 / 20 else -1

/-- `control_indiv_fsm` (control.c:307-370): one invocation for one load
with configuration `cfg` (`s_cfg.load[id]`), current time `now` and
measured `vrms`.  Returns the enable flag and the successor state. -/
def control_indiv_fsm (cfg : load_cfg_t) (now : Nat) (vrms : Int)
    (s : control_indiv_st) : Bool × control_indiv_st :=
  let vmin := cfg.v_min
  let vmax := cfg.v_max
  -- control.c:317-323
  let v_out_range :=
    if s.v_fail then
      (vrms < vmin_hyst vmin ∧ 0 ≤ vmin) ∨ (vrms > vmax_hyst vmax ∧ 0 ≤ vmax)
    else
      (vrms < vmin ∧ 0 ≤ vmin) ∨ (vrms > vmax ∧ 0 ≤ vmax)
  match s.state with
  | .ON =>
      -- control.c:328-336
      if v_out_range then
        (false, { s with state := .FAIL_V, v_fail := true })
      else (true, { s with v_fail := false })
  | .OFF =>
      -- control.c:338-354
      if v_out_range then
        (false, { s with state := .FAIL_V, v_fail := true, timer_load_rec := timer_stop s.timer_load_rec })
      else if cfg.auto_rec then
        if ¬s.timer_load_rec.active then
          (false, { s with v_fail := false, timer_load_rec := timer_start now CONTROL_REC_V_TIME_MS })
        else if timer_expired now s.timer_load_rec then
          (true, { s with v_fail := false, state := .ON, timer_load_rec := timer_stop s.timer_load_rec })
        else (false, { s with v_fail := false })
      else (false, { s with v_fail := false })
  | .FAIL_V =>
      -- control.c:356-366
      if ¬v_out_range then
        (false, { s with state := .OFF, v_fail := false, timer_load_rec := if cfg.auto_rec then timer_start now CONTROL_REC_V_TIME_MS else s.timer_load_rec })
      else (false, { s with v_fail := true })

/- ============ Measurement results (app/measure.c) ================== -/

/-- `measure_t` (measure.h): results of one measurement window
(`float` fields modelled as `ℚ`). -/
structure measure_t where
  Vrms : ℚ
  VDC : ℚ
  Vpk : ℚ
  Irms : ℚ
  IDC : ℚ
  Ipk : ℚ
  P : ℚ
  S : ℚ
  fp : ℚ
  E : ℚ
deriving Repr, DecidableEq

/-- The post-processing tail of `measure_get_results` (measure.c:50-74),
as a function of the raw window aggregates `Vrms`, `Irms`, `P` computed in
measure.c:50-52 (RMS square roots and mean instantaneous power): ground
noise gating, apparent power, power factor and the ACS712 offset
subtraction, exactly as the source orders them.  `VDC`, `Vpk`, `IDC`,
`Ipk` are passed through untouched. -/
def measure_get_results_post (Vrms Irms P VDC Vpk IDC Ipk : ℚ) : measure_t :=
  -- measure.c:53-56
  let Vrms1 := if Vrms ≤ VOLT_DRIVER_GROUNDNOISE then 0 else Vrms
  let P1 := if Vrms ≤ VOLT_DRIVER_GROUNDNOISE then 0 else P
  -- measure.c:57-60
  let Irms1 := if Irms ≤ ACS712_GROUNDNOISE then 0 else Irms
  let P2 := if Irms ≤ ACS712_GROUNDNOISE then 0 else P1
  -- measure.c:61-62
  let S := Vrms1 * Irms1
  let fp := if S > 1 / 1000000 then |P2| / S else 0
  -- measure.c:64-73
  { Vrms := Vrms1, VDC := VDC, Vpk := Vpk,
    Irms := if Irms1 ≤ ACS712_OFFSET then 0 else Irms1 - ACS712_OFFSET,
    IDC := IDC, Ipk := Ipk, P := P2, S := S, fp := fp,
    E := P2 * TIME_SAMPLE_H }

/- ============ Shared state (app/state.c) =========================== -/

/-- `fail_t` (state.h). -/
structure fail_t where
  FAIL_V : Fin NUM_LOADS → Bool
  FAIL_I : Bool
  FAIL_I_NR : Bool

/-- `state_t` (state.h). -/
structure state_t where
  measure : measure_t
  output : Fin NUM_LOADS → Bool
  fails : fail_t

/-- `state_update_measure` (state.c:15-41) on the data it touches: the
shared `state`, the static `last_saved_E` and the submitted measure `m`.
Scalar fields are copied, `E` is accumulated (`state.measure.E += m->E`);
when `E − last_saved_E ≥ SAVE_ENERGY_THS_KWH` the function marks the save
and advances `last_saved_E` (both under the mutex).  The returned `Bool`
is the `should_save` flag that triggers `nvs_save_energy` after the mutex
is released. -/
def state_update_measure (st : state_t) (last_saved_E : ℚ) (m : measure_t) :
    state_t × ℚ × Bool :=
  let meas : measure_t :=
    { Vrms := m.Vrms, VDC := m.VDC, Vpk := m.Vpk, Irms := m.Irms,
      IDC := m.IDC, Ipk := m.Ipk, P := m.P, S := m.S, fp := m.fp,
      E := st.measure.E + m.E }
  let delta := meas.E - last_saved_E
  if delta ≥ SAVE_ENERGY_THS_KWH then
    ({ st with measure := meas }, meas.E, true)
  else
    ({ st with measure := meas }, last_saved_E, false)

/-- `state_reset_energy` (state.c:61-68) on the data it touches: zeroes
`state.measure.E` and `last_saved_E` (and calls `nvs_save_energy(0.0)`,
see the event trace below). -/
def state_reset_energy (st : state_t) : state_t × ℚ :=
  ({ st with measure := { st.measure with E := 0 } }, 0)

/- Event traces for the mutex/persistence ordering.  Each SharedState
operation is abstracted to the sequence of mutex and NVS events it
performs, in source order. -/

/-- Mutex and persistence events emitted by state.c operations. -/
inductive state_event where
  | acquire
  | release
  | save_energy (v : ℚ)

/-- Event trace of `state_update_measure` (state.c:15-41):
take mutex, update, give mutex, then `nvs_save_energy(last_saved_E)` only
when the threshold was crossed. -/
def state_update_measure_events (st : state_t) (last_saved_E : ℚ)
    (m : measure_t) : List state_event :=
  let r := state_update_measure st last_saved_E m
  [state_event.acquire, state_event.release] ++
    (if r.2.2 then [state_event.save_energy r.2.1] else [])

/-- Event trace of `state_reset_energy` (state.c:61-68): the
`nvs_save_energy(0.0)` call sits between take and give. -/
def state_reset_energy_events : List state_event :=
  [state_event.acquire, state_event.save_energy 0, state_event.release]

/-- `true` when some `save_energy` event occurs while the mutex hold
depth `d` is positive. -/
def saves_while_held : List state_event → Nat → Bool
  | [], _ => false
  | state_event.acquire :: rest, d => saves_while_held rest (d + 1)
  | state_event.release :: rest, d => saves_while_held rest (d - 1)
  | state_event.save_energy _ :: rest, d =>
      decide (0 < d) || saves_while_held rest d

/- ============ Change detector (state.c:84-106) ===================== -/

/-- `state_ths_t` (state.h): change-detection thresholds. -/
structure state_ths_t where
  v_ths : ℚ
  i_ths : ℚ
  fp_ths : ℚ
  e_ths : ℚ
  tmin_ms : Nat

/-- `change_detector_t` (state.h). -/
structure change_detector_t where
  last_sent : state_t
  last_update_time : Nat

/-- `state_change_detector_update` (state.c:84-106) with the current tick
time `now` (ms).  Sentinel: `last_update_time == 0` returns `true`
immediately.  Otherwise the value/load/fail deltas are compared and the
elapsed-time test uses wrap-safe `uint32_t` subtraction. -/
def state_change_detector_update (d : change_detector_t) (s : state_t)
    (ths : state_ths_t) (now : Nat) : Bool :=
  if d.last_update_time = 0 then true
  else
    let di := |s.measure.Irms - d.last_sent.measure.Irms|
    let dv := |s.measure.Vrms - d.last_sent.measure.Vrms|
    let dp := abs (|s.measure.fp| - |d.last_sent.measure.fp|)
    let de := |s.measure.E - d.last_sent.measure.E|
    let is_val_change :=
      decide (di > ths.i_ths) || decide (dv > ths.v_ths) ||
      decide (dp > ths.fp_ths) || decide (de > ths.e_ths)
    let is_load_change :=
      (List.finRange NUM_LOADS).any fun i => s.output i != d.last_sent.output i
    let is_fail_change :=
      (s.fails.FAIL_I != d.last_sent.fails.FAIL_I) ||
      (List.finRange NUM_LOADS).any fun i =>
        s.fails.FAIL_V i != d.last_sent.fails.FAIL_V i
    let is_enough_time :=
      decide (u32_sub now d.last_update_time ≥ ths.tmin_ms)
    (is_val_change || is_load_change || is_fail_change) && is_enough_time

/- ============ ADC acquisition loop (app/acquisition.c) ============= -/

/-- One DMA record as seen by `task_adc_acquisition` (acquisition.c:27-61):
the channel and 12-bit data extracted from `adc_digi_output_data_t`, and
the outcome of the external calibration `app_adc_get_voltage` on it
(`none` = calibration error, `some mv` = calibrated millivolts). -/
structure adc_record where
  channel : Nat
  data : Nat
  cal : Option Int

/-- `sizeof(adc_digi_output_data_t)`: 4 bytes (32-bit type1 layout). -/
def ADC_RECORD_BYTES : Nat := 4

/-- Synchronisation state of the acquisition loop: the pending-V flag
`have_v` and the stored voltage sample `v_mv` (acquisition.c:12-13). -/
structure acq_st where
  have_v : Bool
  v_mv : Int
deriving Repr, DecidableEq

/-- Processing of one record in the frame loop (acquisition.c:27-61).
Returns the successor state and the pair passed to `measure_add_sample`
(with the `int16_t` casts of acquisition.c:54), if any. -/
def acq_step (s : acq_st) (r : adc_record) : acq_st × Option (Int × Int) :=
  let value := r.data % 4096   -- & 0x0FFF, acquisition.c:32
  if value ≤ ADC_MAX_COUNT then
    match r.cal with
    | none => ({ s with have_v := false }, none)      -- acquisition.c:37-41
    | some mv =>
        if r.channel = ADC_CH_V then
          ({ have_v := true, v_mv := mv }, none)       -- acquisition.c:48-50
        else if r.channel = ADC_CH_I then
          if s.have_v then                             -- acquisition.c:51-60
            ({ s with have_v := false },
              some (int16_cast s.v_mv, int16_cast mv))
          else (s, none)
        else (s, none)
  else ({ s with have_v := false }, none)              -- acquisition.c:42-46

/-- The per-frame loop body (acquisition.c:27-62): process the records of
one frame in order, collecting the pairs emitted to `measure_add_sample`. -/
def acq_run : acq_st → List adc_record → acq_st × List (Int × Int)
  | s, [] => (s, [])
  | s, r :: rest =>
      let step := acq_step s r
      let tail := acq_run step.1 rest
      (tail.1, step.2.toList ++ tail.2)

/-- One frame of the acquisition loop (acquisition.c:19-62): a frame whose
`ret_bytes` is not an exact multiple of the record size is rejected whole
(acquisition.c:25), otherwise its records are processed in order. -/
def task_adc_acquisition_frame (ret_bytes : Nat) (records : List adc_record)
    (s : acq_st) : acq_st × List (Int × Int) :=
  if ret_bytes % ADC_RECORD_BYTES ≠ 0 then (s, [])
  else acq_run s records

/- ========================= Theorems ================================ -/

/-- C10: for every id `≥ NUM_LOADS`, `control_get_v_min` and
`control_get_v_max` return `-1` without touching the configuration (the
embedding is read-only by construction), the same value as the
bound-disabled sentinel, so an invalid-id failure is indistinguishable at
the interface from a valid load whose bound is configured as `-1`; for
every valid id they return the stored bound. -/
theorem control_get_v_bounds_invalid_id_sentinel (cfg : sys_load_cfg_t)
    (id : Nat) :
    (NUM_LOADS ≤ id →
      control_get_v_min cfg id = -1 ∧ control_get_v_max cfg id = -1) ∧
    (∀ h : id < NUM_LOADS,
      control_get_v_min cfg id = (cfg.load ⟨id, h⟩).v_min ∧
      control_get_v_max cfg id = (cfg.load ⟨id, h⟩).v_max) ∧
    (∃ cfg' : sys_load_cfg_t, ∀ j : Nat, j < NUM_LOADS →
      control_get_v_min cfg' j = control_get_v_min cfg' NUM_LOADS ∧
      control_get_v_max cfg' j = control_get_v_max cfg' NUM_LOADS) := by
  refine ⟨?_, ?_, ?_⟩
  · intro h
    have h' : ¬ id < NUM_LOADS := by omega
    simp [control_get_v_min, control_get_v_max, h']
  · intro h
    simp [control_get_v_min, control_get_v_max, h]
  · refine ⟨{ imax := DEFAULT_IMAX,
              load := fun _ => { v_min := -1, v_max := -1,
                                 auto_rec := true, priority := 0 } }, ?_⟩
    intro j hj
    simp [control_get_v_min, control_get_v_max, hj]

/-- Witness for C10 at concrete inputs: id 7 is invalid and yields the
sentinel; id 0 is valid and yields the stored default bound. -/
theorem control_get_v_bounds_invalid_id_sentinel_witness :
    control_get_v_min control_reset_cfg 7 = -1 ∧
    control_get_v_min control_reset_cfg 0 = 200 := by
  refine ⟨((control_get_v_bounds_invalid_id_sentinel control_reset_cfg 7).1
    (by decide)).1, ?_⟩
  have h := ((control_get_v_bounds_invalid_id_sentinel control_reset_cfg 0).2.1
    (by decide)).1
  simpa [control_reset_cfg, DEFAULT_VMIN] using h

/-- C3 counterexample: starting from the default configuration
(`v_min = 200`), `control_set_load_vmax` happily stores `v_max = 100` for
load 0; both bounds are `≥ 0` yet `v_max > v_min` fails, so the
config-write operations do not enforce the relation. -/
theorem control_set_load_vmax_breaks_bound_order :
    0 ≤ control_get_v_min (control_set_load_vmax control_reset_cfg 0 100).2 0 ∧
    0 ≤ control_get_v_max (control_set_load_vmax control_reset_cfg 0 100).2 0 ∧
    ¬ control_get_v_min (control_set_load_vmax control_reset_cfg 0 100).2 0 <
        control_get_v_max (control_set_load_vmax control_reset_cfg 0 100).2 0 := by
  refine ⟨?_, ?_, ?_⟩ <;> decide

/-- C3 (amended): `control_set_load_vmin` / `control_set_load_vmax`
validate only the load id; for a valid id they store the given value
verbatim and leave the opposite bound untouched, performing no
enforcement of `v_max > v_min` at write time (the relation holds for the
default configuration but can be broken by any write, see the
counterexample). -/
theorem control_set_load_bounds_no_validation (cfg : sys_load_cfg_t)
    (id : Nat) (v : Int) (h : id < NUM_LOADS) :
    (control_set_load_vmin cfg id v).1 = true ∧
    ((control_set_load_vmin cfg id v).2.load ⟨id, h⟩).v_min = v ∧
    ((control_set_load_vmin cfg id v).2.load ⟨id, h⟩).v_max =
      (cfg.load ⟨id, h⟩).v_max ∧
    (control_set_load_vmax cfg id v).1 = true ∧
    ((control_set_load_vmax cfg id v).2.load ⟨id, h⟩).v_max = v ∧
    ((control_set_load_vmax cfg id v).2.load ⟨id, h⟩).v_min =
      (cfg.load ⟨id, h⟩).v_min := by
  simp [control_set_load_vmin, control_set_load_vmax, h, Function.update]

/-- Witness for C3's amended theorem at a concrete input: writing
`v_min = 300` on load 0 of the default configuration succeeds and stores
the value even though it exceeds the configured `v_max = 250`. -/
theorem control_set_load_bounds_no_validation_witness :
    (control_set_load_vmin control_reset_cfg 0 300).1 = true ∧
    ((control_set_load_vmin control_reset_cfg 0 300).2.load
        ⟨0, by decide⟩).v_min = 300 := by
  have h := control_set_load_bounds_no_validation control_reset_cfg 0 300
    (by decide)
  exact ⟨h.1, h.2.1⟩

/-- C2 counterexample: `state_update_measure` accumulates
`E += m.E` unconditionally, so a submitted measure with a negative energy
increment (negative active power over the window) strictly decreases the
accumulated `E_total` with no reset involved: from `E = 5` with
`m.E = -1` the update leaves `E = 4 < 5`. -/
theorem state_update_measure_energy_decreases :
    ((state_update_measure
        { measure := { Vrms := 0, VDC := 0, Vpk := 0, Irms := 0, IDC := 0,
                       Ipk := 0, P := 0, S := 0, fp := 0, E := 5 },
          output := fun _ => false,
          fails := { FAIL_V := fun _ => false, FAIL_I := false,
                     FAIL_I_NR := false } }
        0
        { Vrms := 0, VDC := 0, Vpk := 0, Irms := 0, IDC := 0, Ipk := 0,
          P := -1, S := 0, fp := 0, E := -1 }).1).measure.E <
      ({ measure := { Vrms := 0, VDC := 0, Vpk := 0, Irms := 0, IDC := 0,
                      Ipk := 0, P := 0, S := 0, fp := 0, E := 5 },
         output := fun _ => false,
         fails := { FAIL_V := fun _ => false, FAIL_I := false,
                    FAIL_I_NR := false } } : state_t).measure.E := by
  norm_num [state_update_measure, SAVE_ENERGY_THS_KWH]

/-- C2 (amended): each `state_update_measure` performs `E += m.E`, so the
accumulated energy is non-decreasing across every update whose submitted
increment `m.E` is `≥ 0` (a negative increment decreases it, see the
counterexample), and only `state_reset_energy` zeroes it. -/
theorem state_update_measure_energy_monotone (st : state_t) (last : ℚ)
    (m : measure_t) (h : 0 ≤ m.E) :
    st.measure.E ≤ ((state_update_measure st last m).1).measure.E ∧
    ((state_reset_energy st).1).measure.E = 0 := by
  refine ⟨?_, by simp [state_reset_energy]⟩
  simp only [state_update_measure]
  split_ifs <;> simp <;> linarith

/-- Witness for C2's amended theorem: a concrete update with `m.E = 2`
from `E = 5` leaves `E = 7 ≥ 5`. -/
theorem state_update_measure_energy_monotone_witness :
    (0 : ℚ) ≤ 2 ∧
    ({ measure := { Vrms := 0, VDC := 0, Vpk := 0, Irms := 0, IDC := 0,
                    Ipk := 0, P := 0, S := 0, fp := 0, E := 5 },
       output := fun _ => false,
       fails := { FAIL_V := fun _ => false, FAIL_I := false,
                  FAIL_I_NR := false } } : state_t).measure.E ≤
      ((state_update_measure
          { measure := { Vrms := 0, VDC := 0, Vpk := 0, Irms := 0, IDC := 0,
                         Ipk := 0, P := 0, S := 0, fp := 0, E := 5 },
            output := fun _ => false,
            fails := { FAIL_V := fun _ => false, FAIL_I := false,
                       FAIL_I_NR := false } }
          0
          { Vrms := 0, VDC := 0, Vpk := 0, Irms := 0, IDC := 0, Ipk := 0,
            P := 1, S := 0, fp := 0, E := 2 }).1).measure.E :=
  ⟨by norm_num,
   (state_update_measure_energy_monotone _ 0 _ (by norm_num)).1⟩

/-- C4 counterexample: the event trace of `state_reset_energy`
(state.c:61-68) performs `nvs_save_energy(0.0)` strictly between taking
and giving the state mutex, refuting that energy persistence never occurs
while the mutex is held in every SharedState operation. -/
theorem state_reset_energy_saves_inside_mutex :
    saves_while_held state_reset_energy_events 0 = true := by
  decide

/-- C4 (amended): in `state_update_measure` the save is only marked under
the mutex and `nvs_save_energy` runs strictly after the release, for every
state and submitted measure; `state_reset_energy`, however, calls
`nvs_save_energy(0.0)` while the mutex is held. -/
theorem state_energy_persistence_mutex_discipline :
    (∀ (st : state_t) (last : ℚ) (m : measure_t),
      saves_while_held (state_update_measure_events st last m) 0 = false) ∧
    saves_while_held state_reset_energy_events 0 = true := by
  constructor
  · intro st last m
    unfold state_update_measure_events
    cases h : (state_update_measure st last m).2.2 <;>
      simp [h, saves_while_held]
  · decide

/-- C7: the post-processing of `measure_get_results` (measure.c:50-74)
gates `Vrms` and `P` to 0 at the voltage noise floor, gates `Irms` and `P`
to 0 at the current noise floor, computes `S` as the product of the gated
`Vrms` and `Irms`, computes `fp = |P|/S` when `S > 1e-6` and `0`
otherwise, and emits `Irms = max 0 (Irms_gated − ACS712_OFFSET)`. -/
theorem measure_get_results_post_spec (Vrms Irms P VDC Vpk IDC Ipk : ℚ) :
    (Vrms ≤ VOLT_DRIVER_GROUNDNOISE →
      (measure_get_results_post Vrms Irms P VDC Vpk IDC Ipk).Vrms = 0 ∧
      (measure_get_results_post Vrms Irms P VDC Vpk IDC Ipk).P = 0) ∧
    (Irms ≤ ACS712_GROUNDNOISE →
      (measure_get_results_post Vrms Irms P VDC Vpk IDC Ipk).Irms = 0 ∧
      (measure_get_results_post Vrms Irms P VDC Vpk IDC Ipk).P = 0) ∧
    (measure_get_results_post Vrms Irms P VDC Vpk IDC Ipk).S =
      (measure_get_results_post Vrms Irms P VDC Vpk IDC Ipk).Vrms *
        (if Irms ≤ ACS712_GROUNDNOISE then 0 else Irms) ∧
    (measure_get_results_post Vrms Irms P VDC Vpk IDC Ipk).fp =
      (if (measure_get_results_post Vrms Irms P VDC Vpk IDC Ipk).S > 1 / 1000000
        then |(measure_get_results_post Vrms Irms P VDC Vpk IDC Ipk).P| /
          (measure_get_results_post Vrms Irms P VDC Vpk IDC Ipk).S
        else 0) ∧
    (measure_get_results_post Vrms Irms P VDC Vpk IDC Ipk).Irms =
      max 0 ((if Irms ≤ ACS712_GROUNDNOISE then 0 else Irms) -
        ACS712_OFFSET) := by
  simp only [measure_get_results_post, ACS712_OFFSET, ACS712_GROUNDNOISE,
    max_def]
  split_ifs <;> simp_all <;> linarith

/-- Witness for C7 at concrete inputs: with `Vrms = 100 ≤ 114` the gated
outputs vanish. -/
theorem measure_get_results_post_spec_witness :
    (100 : ℚ) ≤ VOLT_DRIVER_GROUNDNOISE ∧
    (measure_get_results_post 100 1 30 0 0 0 0).Vrms = 0 ∧
    (measure_get_results_post 100 1 30 0 0 0 0).P = 0 :=
  ⟨by norm_num [VOLT_DRIVER_GROUNDNOISE],
   ((measure_get_results_post_spec 100 1 30 0 0 0 0).1
      (by norm_num [VOLT_DRIVER_GROUNDNOISE])).1,
   ((measure_get_results_post_spec 100 1 30 0 0 0 0).1
      (by norm_num [VOLT_DRIVER_GROUNDNOISE])).2⟩

/-- C9: `state_change_detector_update` (state.c:84-106) returns `true` on
the first call after init (`last_update_time == 0` sentinel) regardless of
thresholds, elapsed time or whether the state equals `last_sent`; on every
later call it returns `(value-change ∨ load-change ∨ fail-change) ∧
enough-time`, where enough-time compares the wrap-safe `uint32_t`
difference `now − last_update_time` against `tmin_ms`. -/
theorem state_change_detector_update_spec (d : change_detector_t)
    (s : state_t) (ths : state_ths_t) (now : Nat) :
    (d.last_update_time = 0 →
      state_change_detector_update d s ths now = true) ∧
    (d.last_update_time ≠ 0 →
      (state_change_detector_update d s ths now = true ↔
        ((|s.measure.Irms - d.last_sent.measure.Irms| > ths.i_ths ∨
          |s.measure.Vrms - d.last_sent.measure.Vrms| > ths.v_ths ∨
          abs (|s.measure.fp| - |d.last_sent.measure.fp|) > ths.fp_ths ∨
          |s.measure.E - d.last_sent.measure.E| > ths.e_ths ∨
          (∃ i, s.output i ≠ d.last_sent.output i) ∨
          s.fails.FAIL_I ≠ d.last_sent.fails.FAIL_I ∨
          (∃ i, s.fails.FAIL_V i ≠ d.last_sent.fails.FAIL_V i)) ∧
        u32_sub now d.last_update_time ≥ ths.tmin_ms))) := by
  constructor
  · intro h
    simp [state_change_detector_update, h]
  · intro h
    unfold state_change_detector_update
    rw [if_neg h]
    simp only [Bool.and_eq_true, Bool.or_eq_true, decide_eq_true_eq,
      List.any_eq_true, List.mem_finRange, true_and, exists_prop,
      bne_iff_ne, ne_eq]
    tauto

/-- Witness for C9 at a concrete input: a freshly initialised detector
(`last_update_time = 0`) fires even on an unchanged all-zero state with
huge thresholds. -/
theorem state_change_detector_update_spec_witness :
    state_change_detector_update
      { last_sent :=
          { measure := { Vrms := 0, VDC := 0, Vpk := 0, Irms := 0, IDC := 0,
                         Ipk := 0, P := 0, S := 0, fp := 0, E := 0 },
            output := fun _ => false,
            fails := { FAIL_V := fun _ => false, FAIL_I := false,
                       FAIL_I_NR := false } },
        last_update_time := 0 }
      { measure := { Vrms := 0, VDC := 0, Vpk := 0, Irms := 0, IDC := 0,
                     Ipk := 0, P := 0, S := 0, fp := 0, E := 0 },
        output := fun _ => false,
        fails := { FAIL_V := fun _ => false, FAIL_I := false,
                   FAIL_I_NR := false } }
      { v_ths := 1000, i_ths := 1000, fp_ths := 1000, e_ths := 1000,
        tmin_ms := 1000000 }
      0 = true :=
  (state_change_detector_update_spec _ _ _ 0).1 rfl

/-- C6: the acquisition loop rejects whole any frame whose byte count is
not a multiple of the record size; within an accepted frame a V-channel
record stores its millivolt value and sets the pending-V flag, an
I-channel record emits a pair to `measure_add_sample` exactly when the
pending-V flag is set (then clears it) and is dropped otherwise, and any
record whose masked 12-bit value exceeds `ADC_MAX_COUNT` or whose
calibration fails is dropped and clears the pending-V flag. -/
theorem task_adc_acquisition_frame_sync :
    (∀ (n : Nat) (recs : List adc_record) (s : acq_st),
      n % ADC_RECORD_BYTES ≠ 0 →
      task_adc_acquisition_frame n recs s = (s, [])) ∧
    (∀ (s : acq_st) (r : adc_record) (mv : Int),
      r.channel = ADC_CH_V → r.cal = some mv →
      acq_step s r = ({ have_v := true, v_mv := mv }, none)) ∧
    (∀ (s : acq_st) (r : adc_record) (mv : Int),
      r.channel = ADC_CH_I → r.cal = some mv → s.have_v = true →
      acq_step s r =
        ({ s with have_v := false },
          some (int16_cast s.v_mv, int16_cast mv))) ∧
    (∀ (s : acq_st) (r : adc_record) (mv : Int),
      r.channel = ADC_CH_I → r.cal = some mv → s.have_v = false →
      acq_step s r = (s, none)) ∧
    (∀ (s : acq_st) (r : adc_record),
      ADC_MAX_COUNT < r.data % 4096 ∨ r.cal = none →
      acq_step s r = ({ s with have_v := false }, none)) := by
  have hval : ∀ d : Nat, d % 4096 ≤ ADC_MAX_COUNT := by
    intro d
    have := Nat.mod_lt d (show 0 < 4096 by norm_num)
    unfold ADC_MAX_COUNT
    omega
  refine ⟨?_, ?_, ?_, ?_, ?_⟩
  · intro n recs s hn
    simp [task_adc_acquisition_frame, hn]
  · intro s r mv hch hcal
    simp [acq_step, hval r.data, hcal, hch, ADC_CH_V]
  · intro s r mv hch hcal hv
    simp [acq_step, hval r.data, hcal, hch, ADC_CH_I, ADC_CH_V, hv]
  · intro s r mv hch hcal hv
    simp [acq_step, hval r.data, hcal, hch, ADC_CH_I, ADC_CH_V, hv]
  · intro s r hdrop
    rcases hdrop with hbig | hcal
    · exact absurd hbig (by simpa using Nat.not_lt.mpr (hval r.data))
    · simp [acq_step, hval r.data, hcal]

/-- Witness for C6 at concrete inputs: a 6-byte frame is rejected whole,
and a V-channel record with calibrated value 500 mV primes the pending-V
flag. -/
theorem task_adc_acquisition_frame_sync_witness :
    task_adc_acquisition_frame 6
      [{ channel := 4, data := 100, cal := some 500 }]
      { have_v := false, v_mv := 0 } = ({ have_v := false, v_mv := 0 }, []) ∧
    acq_step { have_v := false, v_mv := 0 }
      { channel := 4, data := 100, cal := some 500 } =
      ({ have_v := true, v_mv := 500 }, none) :=
  ⟨task_adc_acquisition_frame_sync.1 6 _ _ (by decide),
   task_adc_acquisition_frame_sync.2.1 _ _ 500 rfl rfl⟩

/-- C5: for every load configuration and input `vrms`, under the state
invariant `v_fail = (state = FAIL_V)` maintained by the FSM: in `FAIL_V`
the load leaves the failure state exactly when `vrms` has crossed the
widened hysteresis thresholds (`vrms ≥ vmin_hyst` when `v_min ≥ 0` and
`vrms ≤ vmax_hyst` when `v_max ≥ 0`, control.c:314-319), while in `ON` or
`OFF` it enters `FAIL_V` exactly when `vrms` crosses a raw threshold
(`vrms < v_min` with `v_min ≥ 0`, or `vrms > v_max` with `v_max ≥ 0`,
control.c:322). -/
theorem control_indiv_fsm_hysteresis (cfg : load_cfg_t) (now : Nat)
    (vrms : Int) (s : control_indiv_st)
    (hv : s.v_fail = decide (s.state = .FAIL_V)) :
    (s.state = .FAIL_V →
      ((control_indiv_fsm cfg now vrms s).2.state ≠ .FAIL_V ↔
        ((0 ≤ cfg.v_min → vmin_hyst cfg.v_min ≤ vrms) ∧
         (0 ≤ cfg.v_max → vrms ≤ vmax_hyst cfg.v_max)))) ∧
    (s.state ≠ .FAIL_V →
      ((control_indiv_fsm cfg now vrms s).2.state = .FAIL_V ↔
        ((vrms < cfg.v_min ∧ 0 ≤ cfg.v_min) ∨
         (cfg.v_max < vrms ∧ 0 ≤ cfg.v_max)))) := by
  obtain ⟨st, vf, tm⟩ := s
  cases st <;> simp_all [control_indiv_fsm] <;>
    split_ifs <;> simp_all <;> omega

/-- Witness for C5 at a concrete input: with the default bounds
(200, 250) a load in `FAIL_V` sees the widened threshold
`vmin_hyst 200 = 190`, so `vrms = 190` lets it leave the failure state. -/
theorem control_indiv_fsm_hysteresis_witness :
    (control_indiv_fsm
        { v_min := 200, v_max := 250, auto_rec := true, priority := 0 } 0 190
        { state := .FAIL_V, v_fail := true,
          timer_load_rec := { active := false, start_tick := 0,
                              timeout_ms := 0 } }).2.state ≠
      control_indiv_fsm_t.FAIL_V :=
  ((control_indiv_fsm_hysteresis
      { v_min := 200, v_max := 250, auto_rec := true, priority := 0 } 0 190
      { state := .FAIL_V, v_fail := true,
        timer_load_rec := { active := false, start_tick := 0,
                            timeout_ms := 0 } }
      (by decide)).1 rfl).mpr ⟨by decide, by decide⟩

/-- C1: the global overcurrent FSM enables the loads only in `OK`: an
invocation of `control_global_fsm` returns `true` exactly when the state
it leaves behind is `OK`; from `FAIL_I` or `MAN_REC` it always returns
`false`, and from `REC` it returns `false` unless the recovery timer has
expired (in which case it transitions to `OK` and returns `true`,
control.c:290-294). -/
theorem control_global_fsm_true_only_in_ok (imax : ℚ) (now : Nat) (I : ℚ)
    (s : control_global_st) :
    ((control_global_fsm imax now I s).1 = true ↔
      (control_global_fsm imax now I s).2.state = .OK) ∧
    (s.state = .FAIL_I → (control_global_fsm imax now I s).1 = false) ∧
    (s.state = .MAN_REC → (control_global_fsm imax now I s).1 = false) ∧
    (s.state = .REC → timer_expired now s.timer_global_rec = false →
      (control_global_fsm imax now I s).1 = false) := by
  obtain ⟨st, fl, rep, cont, ths, tc, tg⟩ := s
  cases st <;> simp [control_global_fsm] <;> split_ifs <;> simp_all

/-- Witness for C1 at concrete inputs: from `FAIL_I` (and from `REC` with
a stopped recovery timer) the FSM returns `false`. -/
theorem control_global_fsm_true_only_in_ok_witness :
    (control_global_fsm 5 0 0
        { state := .FAIL_I, imax_fail := true, imax_repetitive := false,
          cont_fails_i := 1, imax_ths := true,
          timer_cont_fails_i := { active := false, start_tick := 0,
                                  timeout_ms := 0 },
          timer_global_rec := { active := false, start_tick := 0,
                                timeout_ms := 0 } }).1 = false ∧
    (control_global_fsm 5 0 0
        { state := .REC, imax_fail := false, imax_repetitive := false,
          cont_fails_i := 1, imax_ths := false,
          timer_cont_fails_i := { active := false, start_tick := 0,
                                  timeout_ms := 0 },
          timer_global_rec := { active := false, start_tick := 0,
                                timeout_ms := 0 } }).1 = false :=
  ⟨(control_global_fsm_true_only_in_ok 5 0 0 _).2.1 rfl,
   (control_global_fsm_true_only_in_ok 5 0 0 _).2.2.2 rfl (by decide)⟩

set_option maxHeartbeats 2000000 in
/-- C8: for every assignment of priorities `p` to the load ids,
`control_rebuild_priority_index` produces a valid permutation of
`[0..NUM_LOADS)` whose `(priority, id)` keys are strictly increasing in
the lexicographic order `keyLt`; in particular equal priorities stay
ordered by ascending id, and since a strictly sorted permutation is
unique, rebuilding from the same priorities always yields the same
index (ties are never reordered). -/
theorem control_rebuild_priority_index_sorted_perm (p : Nat → Nat) :
    (control_rebuild_priority_index p).Perm (List.range NUM_LOADS) ∧
    List.Chain' (keyLt p) (control_rebuild_priority_index p) := by
  unfold control_rebuild_priority_index control_cex
  split_ifs <;> (try dsimp only at *) <;> (try split_ifs) <;>
    (try dsimp only at *) <;>
    refine ⟨by decide, ?_⟩ <;> simp_all [keyLt, List.chain'_cons] <;> omega
